import Mathlib

/-!
Verification of the dual-mode asynchronous invocation contract of the
async-mix-and-match repository.

The repository's demonstration functions are shallowly embedded as Lean
functions from their JavaScript arguments to a `CallResult`: the value the
call returns synchronously, the ordered list of actions the call performs
during its synchronous phase (typeof mode checks, scheduling of timers or
immediates, and any delivery events that happen before the call returns),
and the ordered list of delivery events (callback invocations and promise
settlements) that occur after the call has returned, once the event loop
runs the scheduled tasks and microtasks.

Promises are identified by the order of their creation inside one call:
the first promise a call creates has id 0, a promise derived by a then
attachment has the next id, and so on.  A settlement event names the id of
the promise that settles, so returning the internal work promise directly
is distinguishable from returning a fresh one.
-/

namespace DualMode

/-- JavaScript values, as far as the examples use them: undefined, null,
strings, integers, and Error objects carrying a message.  The only object
literals the embedded examples construct are the result records
`{ param1, param2, message, timestamp }` of part_005 and
2-callback-only.js, so those records are embedded as the dedicated
constructor `vobj param1 param2 message timestamp`. -/
inductive JSValue where
  | undef
  | null
  | vstr (s : String)
  | vint (n : Int)
  | verror (msg : String)
  | vobj (param1 param2 : JSValue) (message : String) (timestamp : Int)
deriving DecidableEq, Repr

/-- JavaScript string coercion, for template literals such as
`Processed: ${param1}`. -/
def jsToString : JSValue → String
  | .undef => "undefined"
  | .null => "null"
  | .vstr s => s
  | .vint n => toString n
  | .verror m => "Error: " ++ m
  | .vobj _ _ _ _ => "[object Object]"

/-- JavaScript truthiness, for the `if (callback)` test in
versatileFunction. -/
def truthy : JSValue → Bool
  | .undef => false
  | .null => false
  | .vstr s => !s.isEmpty
  | .vint n => n != 0
  | .verror _ => true
  | .vobj _ _ _ _ => true

/-- The trailing callback argument of a call: omitted, present but not a
function, or a function. -/
inductive CBArg where
  | omitted
  | nonFunction (v : JSValue)
  | function
deriving DecidableEq, Repr

/-- The JavaScript test `typeof callback === 'function'`. -/
def CBArg.isFunction : CBArg → Bool
  | .function => true
  | _ => false

/-- Truthiness of the callback argument (`if (callback)`); an omitted
argument is undefined, hence falsy. -/
def CBArg.isTruthy : CBArg → Bool
  | .omitted => false
  | .nonFunction v => truthy v
  | .function => true

/-- The single outcome of a unit of work: fulfilled with a value or
rejected with an error value. -/
inductive Settlement where
  | fulfilled (v : JSValue)
  | rejected (e : JSValue)
deriving DecidableEq, Repr

/-- A delivery event observable while the call's tasks run: the supplied
callback is invoked with two positional arguments, or the promise with the
given id settles. -/
inductive Event where
  | cbInvoke (err res : JSValue)
  | settle (pid : Nat) (s : Settlement)
deriving DecidableEq, Repr

/-- The value a call returns: undefined, a promise handle identified by
its creation id, or a plain value (for the synchronous demo variants). -/
inductive RetVal where
  | undef
  | promise (pid : Nat)
  | value (v : JSValue)
deriving DecidableEq, Repr

/-- An action performed during the synchronous phase of the call, before
it returns: evaluating the `typeof callback === 'function'` dispatch test
(recording its result), scheduling a deferred task (a setTimeout timer or
a setImmediate, identified by creation order), or a delivery event
happening synchronously inside the call. -/
inductive SyncAction where
  | modeCheck (isFunc : Bool)
  | schedule (tid : Nat)
  | syncEvent (e : Event)
deriving DecidableEq, Repr

/-- The full observable behaviour of one call: its return value, its
synchronous phase in order, and the delivery events that occur after it
has returned, in order. -/
structure CallResult where
  ret : RetVal
  syncActions : List SyncAction
  deferredEvents : List Event
deriving DecidableEq, Repr

/-- Delivery events that happen during the synchronous phase of the
call. -/
def syncDeliveries (r : CallResult) : List Event :=
  r.syncActions.filterMap fun a =>
    match a with
    | .syncEvent e => some e
    | _ => none

/-- All delivery events of a call, synchronous ones first, then the
deferred ones in order. -/
def allEvents (r : CallResult) : List Event :=
  syncDeliveries r ++ r.deferredEvents

/-- Whether an event is an invocation of the supplied callback. -/
def isCbInvoke : Event → Bool
  | .cbInvoke _ _ => true
  | _ => false

/-- How many times the supplied callback is invoked over the whole call,
synchronous and deferred phases together. -/
def cbCount (r : CallResult) : Nat :=
  ((allEvents r).filter isCbInvoke).length

/-- The argument pairs of every callback invocation of the call, in
order. -/
def deliveredPairs (r : CallResult) : List (JSValue × JSValue) :=
  (allEvents r).filterMap fun e =>
    match e with
    | .cbInvoke a b => some (a, b)
    | _ => none

/-- The settlements of the promise with the given id, in order. -/
def settlesOf (pid : Nat) (r : CallResult) : List Settlement :=
  (allEvents r).filterMap fun e =>
    match e with
    | .settle q s => if q = pid then some s else none
    | _ => none

/-- The settlements of the promise the call returned; empty when the call
did not return a promise. -/
def returnedSettles (r : CallResult) : List Settlement :=
  match r.ret with
  | .promise pid => settlesOf pid r
  | _ => []

/-- The results of the mode-selection checks performed during the
synchronous phase, in order. -/
def modeChecks (r : CallResult) : List Bool :=
  r.syncActions.filterMap fun a =>
    match a with
    | .modeCheck b => some b
    | _ => none

/-- True when no deferred task is scheduled before the first
mode-selection check of the synchronous phase. -/
def checkPrecedesScheduling : List SyncAction → Bool
  | [] => true
  | .modeCheck _ :: _ => true
  | .schedule _ :: _ => false
  | .syncEvent _ :: rest => checkPrecedesScheduling rest

/-- The error-first argument pair delivering a given outcome: success is
(null, result); failure is (error, undefined). -/
def cbPairOf : Settlement → JSValue × JSValue
  | .fulfilled v => (.null, v)
  | .rejected e => (e, .undef)

/-- A rejection carries an Error object, never null or undefined. -/
def rejectsWithError : Settlement → Prop
  | .fulfilled _ => True
  | .rejected e => ∃ m, e = JSValue.verror m

/-!
## Embedded source functions

Each definition below transcribes one function of the repository.  The
synchronous phase records, in source order, the typeof dispatch test and
every setTimeout or setImmediate call (a `new Promise(executor)` runs its
executor synchronously, so a setTimeout inside an executor is scheduled at
promise-construction time).  Deferred events record what the scheduled
timer and the microtasks attached to the involved promises deliver, in
the order the event loop runs them.
-/

/-- The outcome of goodDualMode's timer for a given param: the source
tests `param === 'fail'` inside the timer callback. -/
def goodOutcome (param : JSValue) : Settlement :=
  if param = .vstr "fail" then .rejected (.verror "Failure!")
  else .fulfilled param

/-- src/examples/6-bad-vs-good-dualmode.js lines 30-47.  Checks
`typeof callback === 'function'` first; in callback mode schedules a
setTimeout that invokes the callback and returns undefined; otherwise
constructs and returns a promise whose executor schedules a setTimeout
that settles it. -/
def goodDualMode (param : JSValue) (callback : CBArg) : CallResult :=
  if callback.isFunction then
    { ret := .undef
      syncActions := [.modeCheck true, .schedule 0]
      deferredEvents :=
        [if param = .vstr "fail" then .cbInvoke (.verror "Failure!") .undef
         else .cbInvoke .null param] }
  else
    { ret := .promise 0
      syncActions := [.modeCheck false, .schedule 0]
      deferredEvents := [.settle 0 (goodOutcome param)] }

/-- The outcome badDualMode's timer both hands to the callback and uses
to settle its promise: `param === 'fail'` yields Error('Failure!'),
otherwise the param itself. -/
def badOutcome (param : JSValue) : Settlement :=
  if param = .vstr "fail" then .rejected (.verror "Failure!")
  else .fulfilled param

/-- src/examples/6-bad-vs-good-dualmode.js lines 9-23 (badDualMode).
Always constructs and returns a promise; its timer both invokes the
callback (when one is a function) and settles the promise, with the same
outcome. -/
def badDualMode (param : JSValue) (callback : CBArg) : CallResult :=
  { ret := .promise 0
    syncActions := [.schedule 0]
    deferredEvents :=
      if param = .vstr "fail" then
        (if callback.isFunction then [.cbInvoke (.verror "Failure!") .undef] else []) ++
          [.settle 0 (.rejected (.verror "Failure!"))]
      else
        (if callback.isFunction then [.cbInvoke .null param] else []) ++
          [.settle 0 (.fulfilled param)] }

/-- src/examples/6-bad-vs-good-dualmode.js lines 58-64 (goodDualModeSync).
A synchronous variant: with a function callback it invokes the callback
immediately inside the call and returns undefined; otherwise it returns
the param itself.  Nothing is scheduled. -/
def goodDualModeSync (param : JSValue) (callback : CBArg) : CallResult :=
  if callback.isFunction then
    { ret := .undef
      syncActions := [.modeCheck true, .syncEvent (.cbInvoke .null param)]
      deferredEvents := [] }
  else
    { ret := .value param
      syncActions := [.modeCheck false]
      deferredEvents := [] }

/-- The outcome of dualModeFunction's work promise (src/unnamed/part_005):
`param1 === 'error'` rejects with Error('Operation failed'); otherwise it
fulfills with the object {param1, param2, message, timestamp}.  Date.now()
is passed in as `now`. -/
def dualModeWorkOutcome (param1 param2 : JSValue) (now : Int) : Settlement :=
  if param1 = .vstr "error" then .rejected (.verror "Operation failed")
  else .fulfilled (.vobj param1 param2 ("Processed: " ++ jsToString param1) now)

/-- src/unnamed/part_005 lines 4-34 (dualModeFunction).  First constructs
the work promise (id 0) — its executor schedules the setTimeout — and only
then performs the typeof check.  In callback mode it attaches a then
handler (derived promise id 1) and a catch handler (derived promise id 2)
that feed the callback, and returns undefined; otherwise it returns the
work promise itself.  Deferred events: the work promise settles when the
timer fires, then the microtasks run: on success the then handler invokes
callback(null, result) and both derived promises fulfill with undefined;
on failure the then-derived promise rejects with the same error, the catch
handler invokes callback(err), and the catch-derived promise fulfills with
undefined. -/
def dualModeFunction (param1 param2 : JSValue) (callback : CBArg) (now : Int) :
    CallResult :=
  let w := dualModeWorkOutcome param1 param2 now
  if callback.isFunction then
    { ret := .undef
      syncActions := [.schedule 0, .modeCheck true]
      deferredEvents :=
        match w with
        | .fulfilled v =>
            [.settle 0 w, .cbInvoke .null v,
             .settle 1 (.fulfilled .undef), .settle 2 (.fulfilled .undef)]
        | .rejected e =>
            [.settle 0 w, .settle 1 (.rejected e),
             .cbInvoke e .undef, .settle 2 (.fulfilled .undef)] }
  else
    { ret := .promise 0
      syncActions := [.schedule 0, .modeCheck false]
      deferredEvents := [.settle 0 w] }

/-- The outcome of dualModeFunc's work promise (src/unnamed/part_001):
`param === 'err'` rejects with Error('Dual-mode function error');
otherwise it fulfills with the template string. -/
def dualModeFuncOutcome (param : JSValue) : Settlement :=
  if param = .vstr "err" then .rejected (.verror "Dual-mode function error")
  else .fulfilled (.vstr ("Dual-mode result: " ++ jsToString param))

/-- src/unnamed/part_001 lines 684-703 (dualModeFunc).  Same structure as
dualModeFunction but the work promise's executor uses setImmediate and
the parameters differ. -/
def dualModeFunc (param : JSValue) (callback : CBArg) : CallResult :=
  let w := dualModeFuncOutcome param
  if callback.isFunction then
    { ret := .undef
      syncActions := [.schedule 0, .modeCheck true]
      deferredEvents :=
        match w with
        | .fulfilled v =>
            [.settle 0 w, .cbInvoke .null v,
             .settle 1 (.fulfilled .undef), .settle 2 (.fulfilled .undef)]
        | .rejected e =>
            [.settle 0 w, .settle 1 (.rejected e),
             .cbInvoke e .undef, .settle 2 (.fulfilled .undef)] }
  else
    { ret := .promise 0
      syncActions := [.schedule 0, .modeCheck false]
      deferredEvents := [.settle 0 w] }

/-- src/unnamed/part_001 lines 662-670 (callbackOnlyFunc).  Schedules a
setImmediate that invokes the callback error-first; the function body has
no return statement, so the call returns undefined. -/
def callbackOnlyFunc (param : JSValue) : CallResult :=
  { ret := .undef
    syncActions := [.schedule 0]
    deferredEvents :=
      [if param = .vstr "err" then
        .cbInvoke (.verror "Callback function error") .undef
       else
        .cbInvoke .null (.vstr ("Callback result: " ++ jsToString param))] }

/-- The outcome delivered by callbackOnlyFunction
(src/examples/2-callback-only.js): `param1 === 'error'` yields
Error('Operation failed'); otherwise the result object. -/
def callbackOnlyOutcome (param1 param2 : JSValue) (now : Int) : Settlement :=
  if param1 = .vstr "error" then .rejected (.verror "Operation failed")
  else .fulfilled (.vobj param1 param2 ("Processed: " ++ jsToString param1) now)

/-- src/examples/2-callback-only.js lines 4-20 (callbackOnlyFunction).
Schedules a setTimeout whose callback either invokes
callback(new Error('Operation failed')) — a single argument, so the
second positional argument is undefined — or callback(null, result). -/
def callbackOnlyFunction (param1 param2 : JSValue) (now : Int) : CallResult :=
  { ret := .undef
    syncActions := [.schedule 0]
    deferredEvents :=
      [if param1 = .vstr "error" then
        .cbInvoke (.verror "Operation failed") .undef
       else
        .cbInvoke .null
          (.vobj param1 param2 ("Processed: " ++ jsToString param1) now)] }

/-- The outcome of versatileFunction's work promise
(src/examples/3-promise-only.js): `param === 'error'` rejects with
Error('Failed'); otherwise it fulfills with the template string. -/
def versatileOutcome (param : JSValue) : Settlement :=
  if param = .vstr "error" then .rejected (.verror "Failed")
  else .fulfilled (.vstr ("Result: " ++ jsToString param))

/-- src/examples/3-promise-only.js lines 56-76 (versatileFunction).
Constructs the work promise (id 0), then, under the truthiness test
`if (callback)`, attaches then and catch handlers (derived promises 1 and
2) that feed the callback; it ALWAYS returns the work promise, callback or
not. -/
def versatileFunction (param : JSValue) (callback : CBArg) : CallResult :=
  let w := versatileOutcome param
  if callback.isTruthy then
    { ret := .promise 0
      syncActions := [.schedule 0]
      deferredEvents :=
        match w with
        | .fulfilled v =>
            [.settle 0 w, .cbInvoke .null v,
             .settle 1 (.fulfilled .undef), .settle 2 (.fulfilled .undef)]
        | .rejected e =>
            [.settle 0 w, .settle 1 (.rejected e),
             .cbInvoke e .undef, .settle 2 (.fulfilled .undef)] }
  else
    { ret := .promise 0
      syncActions := [.schedule 0]
      deferredEvents := [.settle 0 w] }

/-!
## Claim theorems
-/

/-- C1.  Mode purity: for every call to the dual-mode functions
(goodDualMode, dualModeFunction, dualModeFunc) where a completion
callback is supplied as the final argument, the call returns undefined;
for every call where it is omitted, the call returns a promise handle. -/
theorem mode_purity (param p1 p2 : JSValue) (now : Int) :
    (goodDualMode param .function).ret = .undef ∧
    (goodDualMode param .omitted).ret = .promise 0 ∧
    (dualModeFunction p1 p2 .function now).ret = .undef ∧
    (dualModeFunction p1 p2 .omitted now).ret = .promise 0 ∧
    (dualModeFunc param .function).ret = .undef ∧
    (dualModeFunc param .omitted).ret = .promise 0 :=
  ⟨rfl, rfl, rfl, rfl, rfl, rfl⟩

/-- C2.  Exclusivity: in callback mode the call returns undefined, so the
caller receives no handle on which a settlement could be observed; in
deferred-result mode (callback omitted) the callback is never invoked. -/
theorem exclusivity (param p1 p2 : JSValue) (now : Int) :
    (goodDualMode param .function).ret = .undef ∧
    cbCount (goodDualMode param .omitted) = 0 ∧
    (dualModeFunction p1 p2 .function now).ret = .undef ∧
    cbCount (dualModeFunction p1 p2 .omitted now) = 0 ∧
    (dualModeFunc param .function).ret = .undef ∧
    cbCount (dualModeFunc param .omitted) = 0 :=
  ⟨rfl, rfl, rfl, rfl, rfl, rfl⟩

/-- C3.  Single delivery: in callback mode the supplied callback is
invoked exactly once; in deferred-result mode the returned handle settles
exactly once — never zero times, never twice. -/
theorem single_delivery (param p1 p2 : JSValue) (now : Int) :
    cbCount (goodDualMode param .function) = 1 ∧
    returnedSettles (goodDualMode param .omitted) = [goodOutcome param] ∧
    cbCount (dualModeFunction p1 p2 .function now) = 1 ∧
    returnedSettles (dualModeFunction p1 p2 .omitted now) =
      [dualModeWorkOutcome p1 p2 now] ∧
    cbCount (dualModeFunc param .function) = 1 ∧
    returnedSettles (dualModeFunc param .omitted) = [dualModeFuncOutcome param] := by
  refine ⟨?_, rfl, ?_, rfl, ?_, rfl⟩
  · by_cases h : param = JSValue.vstr "fail" <;>
      simp [cbCount, allEvents, syncDeliveries, goodDualMode, CBArg.isFunction,
        isCbInvoke, h]
  · cases hw : dualModeWorkOutcome p1 p2 now <;>
      simp [cbCount, allEvents, syncDeliveries, dualModeFunction, CBArg.isFunction,
        isCbInvoke, hw]
  · cases hw : dualModeFuncOutcome param <;>
      simp [cbCount, allEvents, syncDeliveries, dualModeFunc, CBArg.isFunction,
        isCbInvoke, hw]

/-- C4 counterexample.  goodDualModeSync, one of the code places the
claim cites, invokes the supplied callback synchronously inside the call:
at input "ok" with a function callback, the callback invocation is in the
synchronous phase and nothing at all is delivered after the call
returns — delivery does not occur strictly after the call. -/
theorem sync_variant_delivers_synchronously :
    syncDeliveries (goodDualModeSync (.vstr "ok") .function) =
      [Event.cbInvoke .null (.vstr "ok")] ∧
    (goodDualModeSync (.vstr "ok") .function).deferredEvents = [] :=
  ⟨rfl, rfl⟩

/-- C4 amended.  For the asynchronous functions — goodDualMode,
dualModeFunction, dualModeFunc (both modes) and callbackOnlyFunc — no
delivery event occurs during the synchronous phase of the call, and at
least one delivery event occurs after the call has returned. -/
theorem deferred_delivery (param p1 p2 : JSValue) (now : Int) :
    (syncDeliveries (goodDualMode param .function) = [] ∧
      (goodDualMode param .function).deferredEvents ≠ []) ∧
    (syncDeliveries (goodDualMode param .omitted) = [] ∧
      (goodDualMode param .omitted).deferredEvents ≠ []) ∧
    (syncDeliveries (dualModeFunction p1 p2 .function now) = [] ∧
      (dualModeFunction p1 p2 .function now).deferredEvents ≠ []) ∧
    (syncDeliveries (dualModeFunction p1 p2 .omitted now) = [] ∧
      (dualModeFunction p1 p2 .omitted now).deferredEvents ≠ []) ∧
    (syncDeliveries (dualModeFunc param .function) = [] ∧
      (dualModeFunc param .function).deferredEvents ≠ []) ∧
    (syncDeliveries (dualModeFunc param .omitted) = [] ∧
      (dualModeFunc param .omitted).deferredEvents ≠ []) ∧
    (syncDeliveries (callbackOnlyFunc param) = [] ∧
      (callbackOnlyFunc param).deferredEvents ≠ []) := by
  refine ⟨⟨rfl, ?_⟩, ⟨rfl, ?_⟩, ⟨rfl, ?_⟩, ⟨rfl, ?_⟩, ⟨rfl, ?_⟩, ⟨rfl, ?_⟩,
    ⟨rfl, ?_⟩⟩
  · simp [goodDualMode, CBArg.isFunction]
  · simp [goodDualMode, CBArg.isFunction]
  · cases hw : dualModeWorkOutcome p1 p2 now <;>
      simp [dualModeFunction, CBArg.isFunction, hw]
  · cases hw : dualModeWorkOutcome p1 p2 now <;>
      simp [dualModeFunction, CBArg.isFunction, hw]
  · cases hw : dualModeFuncOutcome param <;>
      simp [dualModeFunc, CBArg.isFunction, hw]
  · cases hw : dualModeFuncOutcome param <;>
      simp [dualModeFunc, CBArg.isFunction, hw]
  · simp [callbackOnlyFunc]

/-- C5.  Error-first integrity: every callback delivery is exactly the
error-first rendering of the work outcome — success yields (null, result)
and failure yields (error, undefined) — and every failure outcome carries
a genuine Error value, never null or undefined. -/
theorem error_first_integrity (param p1 p2 : JSValue) (now : Int) :
    deliveredPairs (goodDualMode param .function) = [cbPairOf (goodOutcome param)] ∧
    rejectsWithError (goodOutcome param) ∧
    deliveredPairs (dualModeFunction p1 p2 .function now) =
      [cbPairOf (dualModeWorkOutcome p1 p2 now)] ∧
    rejectsWithError (dualModeWorkOutcome p1 p2 now) ∧
    deliveredPairs (callbackOnlyFunction p1 p2 now) =
      [cbPairOf (callbackOnlyOutcome p1 p2 now)] ∧
    rejectsWithError (callbackOnlyOutcome p1 p2 now) := by
  refine ⟨?_, ?_, ?_, ?_, ?_, ?_⟩
  · by_cases h : param = JSValue.vstr "fail" <;>
      simp [deliveredPairs, allEvents, syncDeliveries, goodDualMode, goodOutcome,
        CBArg.isFunction, cbPairOf, h]
  · by_cases h : param = JSValue.vstr "fail" <;>
      simp [goodOutcome, rejectsWithError, h]
  · cases hw : dualModeWorkOutcome p1 p2 now <;>
      simp [deliveredPairs, allEvents, syncDeliveries, dualModeFunction,
        CBArg.isFunction, cbPairOf, hw]
  · by_cases h : p1 = JSValue.vstr "error" <;>
      simp [dualModeWorkOutcome, rejectsWithError, h]
  · by_cases h : p1 = JSValue.vstr "error" <;>
      simp [deliveredPairs, allEvents, syncDeliveries, callbackOnlyFunction,
        callbackOnlyOutcome, cbPairOf, h]
  · by_cases h : p1 = JSValue.vstr "error" <;>
      simp [callbackOnlyOutcome, rejectsWithError, h]

/-- C6 counterexample.  dualModeFunction constructs the work promise —
whose executor schedules the setTimeout — before performing the typeof
check: at a concrete input its synchronous phase is the schedule action
followed by the mode check, so a deferred task is scheduled prior to the
typeof-callback test. -/
theorem schedule_before_mode_check :
    (dualModeFunction (.vstr "a") (.vstr "b") .function 0).syncActions =
      [SyncAction.schedule 0, SyncAction.modeCheck true] ∧
    checkPrecedesScheduling
      (dualModeFunction (.vstr "a") (.vstr "b") .function 0).syncActions = false :=
  ⟨rfl, rfl⟩

/-- C6 amended.  In every call to goodDualMode, dualModeFunction and
dualModeFunc the typeof mode-selection check is performed exactly once,
synchronously, and reports exactly whether the trailing argument is a
function; in goodDualMode the check additionally precedes any scheduling
of asynchronous work, while dualModeFunction and dualModeFunc schedule
the unit of work before checking. -/
theorem mode_check_once (param p1 p2 : JSValue) (cb : CBArg) (now : Int) :
    modeChecks (goodDualMode param cb) = [cb.isFunction] ∧
    checkPrecedesScheduling (goodDualMode param cb).syncActions = true ∧
    modeChecks (dualModeFunction p1 p2 cb now) = [cb.isFunction] ∧
    modeChecks (dualModeFunc param cb) = [cb.isFunction] := by
  cases cb <;>
    exact ⟨rfl, rfl, rfl, rfl⟩

/-- C7.  Failure scenario: at the failure-triggering input with a
function callback, goodDualMode (trigger "fail") and dualModeFunction
(trigger "error") each return undefined and invoke the callback exactly
once, with the operation-failure Error as first argument and undefined as
second. -/
theorem failure_scenario_callback :
    (goodDualMode (.vstr "fail") .function).ret = .undef ∧
    deliveredPairs (goodDualMode (.vstr "fail") .function) =
      [(JSValue.verror "Failure!", JSValue.undef)] ∧
    (dualModeFunction (.vstr "error") (.vstr "x") .function 0).ret = .undef ∧
    deliveredPairs (dualModeFunction (.vstr "error") (.vstr "x") .function 0) =
      [(JSValue.verror "Operation failed", JSValue.undef)] := by
  refine ⟨rfl, ?_, rfl, ?_⟩ <;> rfl

/-- C8.  Handle identity: in deferred-result mode dualModeFunction and
dualModeFunc return the work promise itself (promise id 0, the one
created for the unit of work), and that returned handle settles exactly
with the outcome of that one unit of work. -/
theorem handle_identity (param p1 p2 : JSValue) (now : Int) :
    (dualModeFunction p1 p2 .omitted now).ret = .promise 0 ∧
    returnedSettles (dualModeFunction p1 p2 .omitted now) =
      [dualModeWorkOutcome p1 p2 now] ∧
    (dualModeFunc param .omitted).ret = .promise 0 ∧
    returnedSettles (dualModeFunc param .omitted) = [dualModeFuncOutcome param] :=
  ⟨rfl, rfl, rfl, rfl⟩

/-- C9.  Non-function trailing argument: when the final argument is
present but not a function, the typeof check classifies the call as
deferred-result mode — the call returns the promise and the non-function
value is never invoked. -/
theorem nonFunction_trailing_argument (param p1 p2 v : JSValue) (now : Int) :
    (goodDualMode param (.nonFunction v)).ret = .promise 0 ∧
    cbCount (goodDualMode param (.nonFunction v)) = 0 ∧
    (dualModeFunction p1 p2 (.nonFunction v) now).ret = .promise 0 ∧
    cbCount (dualModeFunction p1 p2 (.nonFunction v) now) = 0 ∧
    (dualModeFunc param (.nonFunction v)).ret = .promise 0 ∧
    cbCount (dualModeFunc param (.nonFunction v)) = 0 :=
  ⟨rfl, rfl, rfl, rfl, rfl, rfl⟩

/-- C10.  The shipped counterexamples exhibit double delivery: with a
function callback, badDualMode and versatileFunction each invoke the
callback exactly once AND return a promise that settles exactly once,
and the callback pair is precisely the error-first rendering of the same
outcome the promise settles with. -/
theorem double_delivery (param : JSValue) :
    cbCount (badDualMode param .function) = 1 ∧
    deliveredPairs (badDualMode param .function) = [cbPairOf (badOutcome param)] ∧
    returnedSettles (badDualMode param .function) = [badOutcome param] ∧
    cbCount (versatileFunction param .function) = 1 ∧
    deliveredPairs (versatileFunction param .function) =
      [cbPairOf (versatileOutcome param)] ∧
    returnedSettles (versatileFunction param .function) = [versatileOutcome param] := by
  refine ⟨?_, ?_, ?_, ?_, ?_, ?_⟩
  · by_cases h : param = JSValue.vstr "fail" <;>
      simp [cbCount, allEvents, syncDeliveries, badDualMode, CBArg.isFunction,
        isCbInvoke, h]
  · by_cases h : param = JSValue.vstr "fail" <;>
      simp [deliveredPairs, allEvents, syncDeliveries, badDualMode, badOutcome,
        CBArg.isFunction, cbPairOf, h]
  · by_cases h : param = JSValue.vstr "fail" <;>
      simp [returnedSettles, settlesOf, allEvents, syncDeliveries, badDualMode,
        badOutcome, CBArg.isFunction, h]
  · cases hw : versatileOutcome param <;>
      simp [cbCount, allEvents, syncDeliveries, versatileFunction, CBArg.isTruthy,
        isCbInvoke, hw]
  · cases hw : versatileOutcome param <;>
      simp [deliveredPairs, allEvents, syncDeliveries, versatileFunction,
        CBArg.isTruthy, cbPairOf, hw]
  · cases hw : versatileOutcome param <;>
      simp [returnedSettles, settlesOf, allEvents, syncDeliveries,
        versatileFunction, CBArg.isTruthy, hw]

end DualMode
